import Mathlib

/-!
Verification of the GameEngine player resource and progression engine.

This file gives a shallow embedding of the energy / experience accounting
core of the repository and proves (or refutes) the specified properties.

Conventions of the embedding:
* JavaScript numbers are modelled as rationals; all constants of the source
  (0.50, 2.5, 1.2, 0.05, 1.5) are exact rationals here.
* Timestamps are rational millisecond counts. The source reads the clock
  with `new Date()`; here the current time is an explicit `now` argument.
* `throw new Error(msg)` is modelled as `Except.error msg`.
* JS `Infinity` (returned by `getXpRequiredForNextLevel` at the level cap)
  is modelled as `Option.none`, with the comparison helper `geOpt` making
  `x >= Infinity` false for every finite `x`, exactly as in JS.
* Prisma stamps an `@updatedAt` column on every row update, so the service
  level functions set `updatedAt := now` on successful writes.
-/

namespace GameEngine

/-- Result of `EnergyManager.applyEnergyBoost`: the new energy amount and
the overflow expiry timestamp (ms), when overflow was created. -/
structure BoostResult where
  energy : ℚ
  overflowExpiry : Option ℚ
deriving DecidableEq

namespace EnergyManager

/-- Base energy regeneration rate in points per minute. -/
def baseRegenerationRate : ℚ := 1

/-- Maximum percentage that energy can overflow beyond max capacity. -/
def maxOverflowPercentage : ℚ := 0.50

/-- Default overflow duration in minutes. -/
def defaultOverflowDuration : ℚ := 60

/-- Boost multiplier for recovery zones. -/
def recoveryZoneMultiplier : ℚ := 2.5

/-- Milliseconds per minute; the source divides timestamp differences by
`1000 * 60` and converts minutes to ms via `Date.setMinutes`. -/
def msPerMinute : ℚ := 60000

/-- Embeds `EnergyManager.getEffectiveEnergyCap` (ZoneConfig.ts).
The `overflowExpiry` parameter defaults to `null` in the source; every
caller in the repository uses that default. -/
def getEffectiveEnergyCap (currentEnergy maxEnergy : ℚ)
    (overflowExpiry : Option ℚ) (now : ℚ) : Except String ℚ :=
  if maxEnergy ≤ 0 then .error "Maximum energy must be positive"
  else
    match overflowExpiry with
    | none => .ok (max currentEnergy maxEnergy)
    | some expiry =>
        if expiry < now then .ok (max currentEnergy maxEnergy)
        else .ok (max currentEnergy (maxEnergy * (1 + maxOverflowPercentage)))

/-- Embeds `EnergyManager.calculateRegeneratedEnergy` (ZoneConfig.ts).
Note: the source calls `getEffectiveEnergyCap(currentEnergy, maxEnergy)`
with no third argument, so the cap is computed with `overflowExpiry = null`. -/
def calculateRegeneratedEnergy (currentEnergy maxEnergy lastEnergyUpdate
    regenMultiplier : ℚ) (inRecoveryZone : Bool) (now : ℚ) : Except String ℚ :=
  if currentEnergy < 0 then .error "Current energy cannot be negative"
  else if maxEnergy ≤ 0 then .error "Maximum energy must be positive"
  else if regenMultiplier < 0 then .error "Regeneration multiplier cannot be negative"
  else do
    let effectiveCap ← getEffectiveEnergyCap currentEnergy maxEnergy none now
    if effectiveCap ≤ currentEnergy then
      pure currentEnergy
    else
      let minutesPassed : ℚ := max 0 ((now - lastEnergyUpdate) / msPerMinute)
      let effectiveMultiplier : ℚ :=
        if inRecoveryZone then regenMultiplier * recoveryZoneMultiplier
        else regenMultiplier
      let energyGained : ℚ :=
        ((⌊minutesPassed * baseRegenerationRate * effectiveMultiplier⌋ : ℤ) : ℚ)
      pure (min (currentEnergy + energyGained) effectiveCap)

/-- Embeds `EnergyManager.applyEnergyBoost` (ZoneConfig.ts). -/
def applyEnergyBoost (currentEnergy maxEnergy boostAmount : ℚ)
    (allowOverflow : Bool) (overflowDuration : ℚ) (now : ℚ) :
    Except String BoostResult :=
  if currentEnergy < 0 then .error "Current energy cannot be negative"
  else if maxEnergy ≤ 0 then .error "Maximum energy must be positive"
  else if boostAmount ≤ 0 then .error "Boost amount must be positive"
  else if overflowDuration < 0 then .error "Overflow duration cannot be negative"
  else
    let maxPossibleEnergy : ℚ :=
      if allowOverflow then maxEnergy * (1 + maxOverflowPercentage) else maxEnergy
    let newEnergy : ℚ := min (currentEnergy + boostAmount) maxPossibleEnergy
    let overflowExpiry : Option ℚ :=
      if maxEnergy < newEnergy then some (now + overflowDuration * msPerMinute)
      else none
    .ok ⟨newEnergy, overflowExpiry⟩

end EnergyManager

/-- Comparison `v ≤ x` for a possibly-infinite `v` (`none` models JS
`Infinity`): `x >= Infinity` is false for every finite `x`. -/
def geOpt (x : ℚ) : Option ℚ → Bool
  | none => false
  | some v => decide (v ≤ x)

/-- Addition where `none` models JS `Infinity`: adding `Infinity` to
anything yields `Infinity`. -/
def addOpt : Option ℚ → Option ℚ → Option ℚ
  | some a, some b => some (a + b)
  | _, _ => none

namespace ExperienceCalculator

/-- The base XP required for level 2. -/
def baseXP : ℚ := 100

/-- The factor by which XP requirements scale per level. -/
def xpScalingFactor : ℚ := 1.2

/-- The maximum level that can be achieved. -/
def maxLevel : ℕ := 100

/-- The finite value `floor(baseXP * xpScalingFactor ^ (currentLevel - 1))`
computed by `getXpRequiredForNextLevel` below the level cap. -/
def xpStep (currentLevel : ℕ) : ℚ :=
  ((⌊baseXP * xpScalingFactor ^ ((currentLevel : ℤ) - 1)⌋ : ℤ) : ℚ)

/-- Embeds `ExperienceCalculator.getXpRequiredForNextLevel` (part 004).
Returns `none` (JS `Infinity`) at or above the level cap. -/
def getXpRequiredForNextLevel (currentLevel : ℕ) : Option ℚ :=
  if maxLevel ≤ currentLevel then none else some (xpStep currentLevel)

/-- Embeds `ExperienceCalculator.getXpForLevel` (part 004): the total XP
required for a given level, summing the per-level requirements for levels
`1 ≤ i < min level maxLevel` (all of which are finite). -/
def getXpForLevel (level : ℕ) : ℚ :=
  if level ≤ 1 then 0
  else ((⌊((List.range' 1 (min level maxLevel - 1)).map xpStep).sum⌋ : ℤ) : ℚ)

/-- The while loop of `getLevelFromXp`, with the iteration count as an
explicit argument. The source loop guard requires `level < maxLevel`, and
the loop increments `level` by one per iteration, so starting from level 1
with `maxLevel - 1` permitted iterations the count never binds: the guard
fails at exactly the point the count would run out. -/
def getLevelFromXpAux (xp : ℚ) : ℕ → ℕ → Option ℚ → ℕ
  | 0, level, _ => level
  | fuel + 1, level, totalXpNeeded =>
    if geOpt xp totalXpNeeded && decide (level < maxLevel) then
      getLevelFromXpAux xp fuel (level + 1)
        (addOpt totalXpNeeded (getXpRequiredForNextLevel (level + 1)))
    else level

/-- Embeds `ExperienceCalculator.getLevelFromXp` (part 004): the level for
a given amount of total XP. -/
def getLevelFromXp (xp : ℚ) : ℕ :=
  if xp ≤ 0 then 1
  else getLevelFromXpAux xp (maxLevel - 1) 1 (getXpRequiredForNextLevel 1)

/-- The fields of the object returned by
`ExperienceCalculator.getRemainingXp` that the services consume. -/
structure RemainingXp where
  currentLevel : ℕ
  currentXp : ℚ
  nextLevelXp : Option ℚ
deriving DecidableEq

/-- Embeds `ExperienceCalculator.getRemainingXp` (part 004). Its parameter
is documented in the source as the user's current total XP. -/
def getRemainingXp (totalXp : ℚ) : RemainingXp :=
  let currentLevel := getLevelFromXp totalXp
  let xpStartOfLevel := getXpForLevel currentLevel
  let xpIntoLevel := totalXp - xpStartOfLevel
  { currentLevel := currentLevel
    currentXp := xpIntoLevel
    nextLevelXp := getXpRequiredForNextLevel currentLevel }

/-- Users below this level compared to the server average get boosted XP. -/
def catchupThreshold : ℚ := 5

/-- Maximum catch-up multiplier (at maximum level difference). -/
def maxCatchupMultiplier : ℚ := 1.5

/-- Embeds `ExperienceCalculator.getCatchupMultiplier` (part 004). The
source reads the average level from the static `_averageUserLevel`; here it
is an explicit argument. -/
def getCatchupMultiplier (userLevel averageUserLevel : ℚ) : ℚ :=
  if averageUserLevel ≤ userLevel then 1
  else
    let levelDifference := min (averageUserLevel - userLevel) catchupThreshold
    let catchupBonus := levelDifference / catchupThreshold * (maxCatchupMultiplier - 1)
    1 + catchupBonus

end ExperienceCalculator

/-- The columns of the Prisma `User` model consumed by the embedded
service operations. -/
structure User where
  level : ℕ
  experience : ℚ
  currentEnergy : ℚ
  maxEnergy : ℚ
  updatedAt : ℚ
  prestigeLevel : ℕ
  prestigePoints : ℕ
  totalLifetimeExperience : ℚ
deriving DecidableEq

/-- A row of the Prisma `XpMultiplierEvent` table: multiplier value, active
window, and the optional user / zone scope columns (which the UserService
query never reads). -/
structure XpMultiplierEvent where
  multiplier : ℚ
  startTime : ℚ
  endTime : ℚ
  userIds : Option (List String)
  zoneIds : Option (List String)
deriving DecidableEq

/-- The active-window test of the `xpMultiplierEvent.findMany` query in
`UserService.getCurrentXpMultipliers`: `startTime ≤ now ∧ endTime ≥ now`. -/
def isActiveEvent (e : XpMultiplierEvent) (now : ℚ) : Bool :=
  decide (e.startTime ≤ now) && decide (now ≤ e.endTime)

/-- Scope test of an event for an acting player and zone, following the
semantics of the optional `userIds` / `zoneIds` columns: an absent scope
applies to everyone / everywhere. -/
def inScopeEvent (e : XpMultiplierEvent) (userId zoneId : String) : Bool :=
  (match e.userIds with
   | none => true
   | some us => us.contains userId) &&
  (match e.zoneIds with
   | none => true
   | some zs => zs.contains zoneId)

/-- The value `Math.max(...list)` over a list of multipliers, `1.0` for an
empty list, as computed by `UserService.getCurrentXpMultipliers`. -/
def eventMultiplierOf (multipliers : List ℚ) : ℚ :=
  match multipliers with
  | [] => 1
  | m :: ms => ms.foldl max m

/-- The event multiplier the spec prescribes: the single highest multiplier
among the events that are active now and in scope for the acting player
and zone, `1.0` when none apply. Stated from the spec's words, for
comparison with the source computation. -/
def specHighestApplicableMultiplier (events : List XpMultiplierEvent)
    (now : ℚ) (userId zoneId : String) : ℚ :=
  eventMultiplierOf
    ((events.filter fun e => isActiveEvent e now && inScopeEvent e userId zoneId).map
      fun e => e.multiplier)

/-- The record returned by `UserService.getCurrentXpMultipliers`. -/
structure XpMultipliers where
  eventMultiplier : ℚ
  catchupMultiplier : ℚ
  totalMultiplier : ℚ
deriving DecidableEq

namespace UserService

/-- Embeds `UserService.getCurrentXpMultipliers` (UserService.ts). The
active events, the stored server average level and the user's level are
explicit arguments in place of the database reads. The event query filters
only on the active window (scope columns are not consulted), the event
multiplier is the maximum over the active events (`1.0` when none), and the
catch-up multiplier is `1.0` unless the level deficit strictly exceeds 5,
in which case it is `min(1 + deficit * 0.05, 1.5)`. -/
def getCurrentXpMultipliers (events : List XpMultiplierEvent) (now : ℚ)
    (avgLevel : ℚ) (userLevel : ℕ) : XpMultipliers :=
  let activeEvents := events.filter fun e => isActiveEvent e now
  let eventMultiplier := eventMultiplierOf (activeEvents.map fun e => e.multiplier)
  let levelDifference : ℚ := avgLevel - (userLevel : ℚ)
  let catchupMultiplier : ℚ :=
    if 5 < levelDifference then min (1 + levelDifference * 0.05) 1.5 else 1
  { eventMultiplier := eventMultiplier
    catchupMultiplier := catchupMultiplier
    totalMultiplier := eventMultiplier * catchupMultiplier }

/-- A row of the Prisma `MilestoneReward` table (the columns the milestone
logic reads: primary key, owner, level, claimed flag). -/
structure MilestoneRecord where
  id : String
  userId : String
  level : ℕ
  claimed : Bool
deriving DecidableEq

/-- The ids of the milestone rewards defined for each level in
`UserService.processMilestoneRewards` (levels 5, 10, 25 and 50; level 50
defines three rewards). -/
def milestoneRewardIds (userId : String) : ℕ → List String
  | 5 => ["level-5-currency-" ++ userId]
  | 10 => ["level-10-energy-" ++ userId]
  | 25 => ["level-25-title-" ++ userId]
  | 50 => ["level-50-currency-" ++ userId,
           "level-50-energy-" ++ userId,
           "level-50-title-" ++ userId]
  | _ => []

/-- The per-reward `milestoneReward.create` loop: each insert fails on a
duplicate primary key, as the database would. -/
def insertRecords (userId : String) (level : ℕ) :
    List MilestoneRecord → List String → Except String (List MilestoneRecord)
  | db, [] => .ok db
  | db, rid :: rest =>
    if db.any fun r => r.id == rid then
      .error "Unique constraint failed on MilestoneReward id"
    else
      insertRecords userId level
        (db ++ [{ id := rid, userId := userId, level := level, claimed := false }])
        rest

/-- Embeds `UserService.processMilestoneRewards` (UserService.ts): if
unclaimed rewards for this exact level already exist they are returned and
nothing is written; otherwise the rewards defined for this level (if any)
are inserted. The database table is an explicit list argument. -/
def processMilestoneRewards (db : List MilestoneRecord) (userId : String)
    (level : ℕ) : Except String (List MilestoneRecord × List String) :=
  let existingRewards :=
    db.filter fun r => r.userId == userId && r.level == level && r.claimed == false
  if 0 < existingRewards.length then
    .ok (db, existingRewards.map fun r => r.id)
  else
    let rewards := milestoneRewardIds userId level
    (insertRecords userId level db rewards).map fun db2 => (db2, rewards)

/-- The level-up while loop of `UserService.addExperience`, with the
iteration count as an explicit first argument. The loop guard compares the
running experience tally against `getRemainingXp(tally).nextLevelXp`
(false when that value is `Infinity`) and each iteration subtracts that
requirement, which is at least `baseXP = 100`; so a tally `e` permits at
most `ceil e / 100` iterations and the count chosen in `levelUpLoop` below
never binds (see `levelUpLoopF_count_irrelevant`). -/
def levelUpLoopF : ℕ → ℚ → ℕ → Bool → ℚ × ℕ × Bool
  | 0, e, lvl, leveled => (e, lvl, leveled)
  | fuelN + 1, e, lvl, leveled =>
    match (ExperienceCalculator.getRemainingXp e).nextLevelXp with
    | none => (e, lvl, leveled)
    | some v =>
      if v ≤ e then levelUpLoopF fuelN (e - v) (lvl + 1) true
      else (e, lvl, leveled)

/-- The level-up while loop of `UserService.addExperience`. -/
def levelUpLoop (e : ℚ) (lvl : ℕ) : ℚ × ℕ × Bool :=
  levelUpLoopF (⌈e⌉.toNat + 1) e lvl false

/-- The result of `UserService.addExperience`: the updated user row, the
milestone table after processing, and the fields of the returned
`ExperienceGainResult`. -/
structure ExperienceGainResult where
  user : User
  db : List MilestoneRecord
  leveledUp : Bool
  oldLevel : ℕ
  newLevel : ℕ
  actualXp : ℚ
  eventMultiplier : ℚ
  catchupMultiplier : ℚ
  totalMultiplier : ℚ
  milestoneRewards : List String
deriving DecidableEq

/-- Embeds `UserService.addExperience` (UserService.ts). The user row, the
milestone table, the active events and the stored average level are
explicit arguments in place of the database reads; `now` is the clock.
Milestone rewards are processed only for the final `newLevel`, and only
when the call leveled the user up. -/
def addExperience (user : User) (db : List MilestoneRecord) (userId : String)
    (baseAmount : ℚ) (events : List XpMultiplierEvent) (now avgLevel : ℚ) :
    Except String ExperienceGainResult := do
  let multipliers := getCurrentXpMultipliers events now avgLevel user.level
  let actualXp : ℚ := ((⌈baseAmount * multipliers.totalMultiplier⌉ : ℤ) : ℚ)
  let oldLevel := user.level
  let (newExperience, newLevel, leveledUp) :=
    levelUpLoop (user.experience + actualXp) oldLevel
  let updatedUser : User :=
    { user with
      level := newLevel
      experience := newExperience
      totalLifetimeExperience := user.totalLifetimeExperience + actualXp }
  let (db2, milestoneRewards) ←
    if leveledUp then processMilestoneRewards db userId newLevel
    else pure (db, [])
  .ok { user := updatedUser
        db := db2
        leveledUp := leveledUp
        oldLevel := oldLevel
        newLevel := newLevel
        actualXp := actualXp
        eventMultiplier := multipliers.eventMultiplier
        catchupMultiplier := multipliers.catchupMultiplier
        totalMultiplier := multipliers.totalMultiplier
        milestoneRewards := milestoneRewards }

/-- Embeds `UserService.consumeEnergy` (UserService.ts): validate the
amount, reconcile the current energy from `updatedAt`, reject on
insufficient energy, otherwise debit; the Prisma update stamps
`updatedAt := now`. -/
def consumeEnergy (user : User) (amount : ℚ) (now : ℚ) : Except String User :=
  if amount ≤ 0 then .error "Amount must be positive"
  else do
    let currentEnergy ← EnergyManager.calculateRegeneratedEnergy
      user.currentEnergy user.maxEnergy user.updatedAt 1 false now
    if currentEnergy < amount then .error "Insufficient energy"
    else
      .ok { user with currentEnergy := currentEnergy - amount, updatedAt := now }

/-- Embeds `UserService.regenerateEnergy` (UserService.ts): validate the
amount, reconcile, add the amount capped at `maxEnergy`; the Prisma update
stamps `updatedAt := now`. -/
def regenerateEnergy (user : User) (amount : ℚ) (now : ℚ) : Except String User :=
  if amount < 0 then .error "Amount cannot be negative"
  else do
    let currentEnergy ← EnergyManager.calculateRegeneratedEnergy
      user.currentEnergy user.maxEnergy user.updatedAt 1 false now
    let newEnergy := min (currentEnergy + amount) user.maxEnergy
    .ok { user with currentEnergy := newEnergy, updatedAt := now }

/-- Embeds the user-row mutation of `UserService.prestigeUser`
(UserService.ts): below level 50 the call fails; otherwise level and
experience reset, `prestigeLevel` increments, `prestigePoints` gains
`floor(oldLevel / 10)`, and `totalLifetimeExperience` is not touched. -/
def prestigeUser (user : User) : Except String User :=
  if user.level < 50 then
    .error "You must be at least level 50 to prestige"
  else
    .ok { user with
          level := 1
          experience := 0
          prestigeLevel := user.prestigeLevel + 1
          prestigePoints := user.prestigePoints + user.level / 10 }

end UserService

/-- The columns of the `UserEnergyState` row read by the reconcile-and-
persist step of the services. `inRecoveryZone` abstracts a non-null
`currentRecoveryZoneId`. -/
structure EnergyState where
  currentEnergy : ℚ
  maxEnergy : ℚ
  lastEnergyUpdate : ℚ
  regenRateMultiplier : ℚ
  inRecoveryZone : Bool
deriving DecidableEq

/-- The reconcile-and-persist step the services perform before every
energy mutation (ZoneService enter/leave, UserService energy operations):
recompute the current energy with `calculateRegeneratedEnergy` and stamp
`lastEnergyUpdate` with the time of the write. -/
def reconcileEnergyState (s : EnergyState) (now : ℚ) : Except String EnergyState := do
  let r ← EnergyManager.calculateRegeneratedEnergy s.currentEnergy s.maxEnergy
    s.lastEnergyUpdate s.regenRateMultiplier s.inRecoveryZone now
  pure { s with currentEnergy := r, lastEnergyUpdate := now }

/-- The Reconcile computation the spec prescribes, stated from the spec's
words for comparison with the source: the effective cap honours an unexpired
`overflowExpiry` (allowing regeneration up to `max * (1 + 0.50)`), and
otherwise equals `max(current, max)`. -/
def specReconcile (currentEnergy maxEnergy lastUpdate regenMultiplier : ℚ)
    (inRecoveryZone : Bool) (overflowExpiry : Option ℚ) (now : ℚ) : ℚ :=
  let effectiveCap : ℚ :=
    match overflowExpiry with
    | none => max currentEnergy maxEnergy
    | some expiry =>
        if expiry < now then max currentEnergy maxEnergy
        else max currentEnergy (maxEnergy * (1 + 0.50))
  if effectiveCap ≤ currentEnergy then currentEnergy
  else
    let minutesPassed : ℚ := max 0 ((now - lastUpdate) / 60000)
    let effectiveMultiplier : ℚ :=
      if inRecoveryZone then regenMultiplier * 2.5 else regenMultiplier
    min (currentEnergy + ((⌊minutesPassed * 1 * effectiveMultiplier⌋ : ℤ) : ℚ))
      effectiveCap

/-! ## Supporting lemmas -/

theorem exceptBind_ok {ε α β : Type} (a : α) (f : α → Except ε β) :
    (Except.ok a : Except ε α) >>= f = f a := rfl

theorem effectiveCap_none (c m now : ℚ) (hm : 0 < m) :
    EnergyManager.getEffectiveEnergyCap c m none now = .ok (max c m) := by
  unfold EnergyManager.getEffectiveEnergyCap
  rw [if_neg (not_le.mpr hm)]

/-- Exact shape of a successful reconciliation: the cap is always
`max c m` (the source never passes `overflowExpiry`). -/
theorem calcRegen_eq (c m l r0 now : ℚ) (zone : Bool)
    (hc : 0 ≤ c) (hm : 0 < m) (hr : 0 ≤ r0) :
    EnergyManager.calculateRegeneratedEnergy c m l r0 zone now =
      .ok (if max c m ≤ c then c
        else
          min (c + ((⌊max 0 ((now - l) / EnergyManager.msPerMinute) *
              EnergyManager.baseRegenerationRate *
              (if zone then r0 * EnergyManager.recoveryZoneMultiplier else r0)⌋ : ℤ) : ℚ))
            (max c m)) := by
  unfold EnergyManager.calculateRegeneratedEnergy
  simp only [if_neg (not_lt.mpr hc), if_neg (not_le.mpr hm), if_neg (not_lt.mpr hr)]
  rw [effectiveCap_none c m now hm, exceptBind_ok]
  split <;> rfl

/-- The floored regeneration gain is nonnegative. -/
theorem regenGain_nonneg (x r0 : ℚ) (hr : 0 ≤ r0) (zone : Bool) :
    (0 : ℚ) ≤ ((⌊max 0 x * EnergyManager.baseRegenerationRate *
      (if zone then r0 * EnergyManager.recoveryZoneMultiplier else r0)⌋ : ℤ) : ℚ) := by
  have hmul : (0:ℚ) ≤ max 0 x * EnergyManager.baseRegenerationRate *
      (if zone then r0 * EnergyManager.recoveryZoneMultiplier else r0) := by
    have h1 : (0:ℚ) ≤ max 0 x := le_max_left 0 x
    have h2 : (0:ℚ) ≤ (if zone then r0 * EnergyManager.recoveryZoneMultiplier else r0) := by
      unfold EnergyManager.recoveryZoneMultiplier
      split
      · positivity
      · exact hr
    unfold EnergyManager.baseRegenerationRate
    positivity
  exact_mod_cast Int.floor_nonneg.mpr hmul

/-- A successful reconciliation never decreases the current energy, never
exceeds `max c m`, and leaves a value already at or above cap untouched. -/
theorem calcRegen_bounds (c m l r0 now : ℚ) (zone : Bool)
    (hc : 0 ≤ c) (hm : 0 < m) (hr : 0 ≤ r0) :
    ∃ r, EnergyManager.calculateRegeneratedEnergy c m l r0 zone now = .ok r ∧
      c ≤ r ∧ r ≤ max c m ∧ (m ≤ c → r = c) := by
  rw [calcRegen_eq c m l r0 now zone hc hm hr]
  refine ⟨_, rfl, ?_, ?_, ?_⟩
  · split
    · exact le_refl c
    · exact le_min (le_add_of_nonneg_right (regenGain_nonneg _ r0 hr zone)) (le_max_left c m)
  · split
    · exact le_max_left c m
    · exact min_le_right _ _
  · intro hmc
    rw [if_pos (by simp [max_eq_left hmc])]

/-- Reconciling at the very moment of the last update adds nothing. -/
theorem calcRegen_same_time (c m r0 now : ℚ) (zone : Bool)
    (hc : 0 ≤ c) (hm : 0 < m) (hr : 0 ≤ r0) :
    EnergyManager.calculateRegeneratedEnergy c m now r0 zone now = .ok c := by
  rw [calcRegen_eq c m now r0 now zone hc hm hr]
  have hz : max (0:ℚ) ((now - now) / EnergyManager.msPerMinute) = 0 := by
    simp
  rw [hz]
  have hfl : (⌊(0:ℚ) * EnergyManager.baseRegenerationRate *
      (if zone then r0 * EnergyManager.recoveryZoneMultiplier else r0)⌋ : ℤ) = 0 := by
    rw [zero_mul, zero_mul, Int.floor_zero]
  rw [hfl]
  split
  · rfl
  · rw [Int.cast_zero, add_zero, min_eq_left (le_max_left c m)]

/-! ## Claim C2 -/

/-- C2 (counterexample): with `current = 120`, `max = 100`, `lastUpdate = 0`,
`now = 600000` (ten minutes later), multiplier 1, no recovery zone, and an
overflow expiry at `900000` still in the future, the claim's Reconcile
(cap `max(120, 150) = 150`) yields `130`, but the source reconciliation
returns `120` unchanged: the regeneration path never passes
`overflowExpiry`, so a player between max and the overflow cap does not
regenerate. -/
theorem C2_counterexample :
    EnergyManager.calculateRegeneratedEnergy 120 100 0 1 false 600000 = .ok 120 ∧
    specReconcile 120 100 0 1 false (some 900000) 600000 = 130 ∧
    (120 : ℚ) ≠ 130 := by
  refine ⟨?_, ?_, by norm_num⟩
  · rw [calcRegen_eq 120 100 0 1 600000 false (by norm_num) (by norm_num) (by norm_num)]
    norm_num
  · norm_num [specReconcile]

/-- C2 (amended): the source's Reconcile always computes
`effectiveCap = max(current, max)` because it never passes `overflowExpiry`
to the cap helper; hence it leaves any value at or above `max` untouched
(no regeneration toward the overflow cap) while never reducing it (lazy
clamp). The cap helper itself, when given an overflow expiry, honours it:
an unexpired expiry yields `max(current, max * (1 + 0.50))`, an unset or
passed one yields `max(current, max)`. -/
theorem C2_reconcile_cap (c m l r0 now expiry : ℚ) (zone : Bool)
    (hc : 0 ≤ c) (hm : 0 < m) (hr : 0 ≤ r0) :
    (now ≤ expiry → EnergyManager.getEffectiveEnergyCap c m (some expiry) now
        = .ok (max c (m * (1 + EnergyManager.maxOverflowPercentage)))) ∧
    (expiry < now → EnergyManager.getEffectiveEnergyCap c m (some expiry) now
        = .ok (max c m)) ∧
    (EnergyManager.getEffectiveEnergyCap c m none now = .ok (max c m)) ∧
    (∃ r, EnergyManager.calculateRegeneratedEnergy c m l r0 zone now = .ok r ∧
      c ≤ r ∧ r ≤ max c m ∧ (m ≤ c → r = c)) := by
  refine ⟨?_, ?_, effectiveCap_none c m now hm, calcRegen_bounds c m l r0 now zone hc hm hr⟩
  · intro h
    unfold EnergyManager.getEffectiveEnergyCap
    rw [if_neg (not_le.mpr hm)]
    simp only [if_neg (not_lt.mpr h)]
  · intro h
    unfold EnergyManager.getEffectiveEnergyCap
    rw [if_neg (not_le.mpr hm)]
    simp only [if_pos h]

/-- Witness for C2: the amended statement at `current = 120`, `max = 100`,
expiry `900000`, `now = 600000`. -/
theorem C2_witness :
    EnergyManager.getEffectiveEnergyCap 120 100 (some 900000) 600000 = .ok 150 ∧
    EnergyManager.getEffectiveEnergyCap 120 100 (some 300000) 600000 = .ok 120 ∧
    EnergyManager.getEffectiveEnergyCap 120 100 none 600000 = .ok 120 ∧
    EnergyManager.calculateRegeneratedEnergy 120 100 0 1 false 600000 = .ok 120 := by
  have h := C2_reconcile_cap 120 100 0 1 600000 900000 false
    (by norm_num) (by norm_num) (by norm_num)
  have h' := C2_reconcile_cap 120 100 0 1 600000 300000 false
    (by norm_num) (by norm_num) (by norm_num)
  refine ⟨?_, ?_, ?_, ?_⟩
  · rw [h.1 (by norm_num)]
    norm_num [EnergyManager.maxOverflowPercentage]
  · rw [h'.2.1 (by norm_num)]
    norm_num
  · rw [h.2.2.1]
    norm_num
  · obtain ⟨r, hok, _, _, hfix⟩ := h.2.2.2
    rw [hok, hfix (by norm_num)]

/-! ## Claim C5 -/

/-- C5: `consumeEnergy` fails with the invalid-amount error when
`amount ≤ 0`; otherwise it reconciles first, fails with the
insufficient-energy error (writing nothing) when the reconciled current is
strictly below the amount, and otherwise debits the reconciled value and
stamps `updatedAt := now`. -/
theorem C5_consume_energy (user : User) (amount now : ℚ) :
    (amount ≤ 0 →
      UserService.consumeEnergy user amount now = .error "Amount must be positive") ∧
    ∀ r, EnergyManager.calculateRegeneratedEnergy user.currentEnergy user.maxEnergy
        user.updatedAt 1 false now = .ok r →
      (0 < amount → r < amount →
        UserService.consumeEnergy user amount now = .error "Insufficient energy") ∧
      (0 < amount → amount ≤ r →
        UserService.consumeEnergy user amount now
          = .ok { user with currentEnergy := r - amount, updatedAt := now }) := by
  constructor
  · intro h
    unfold UserService.consumeEnergy
    rw [if_pos h]
  · intro r hrec
    constructor
    · intro hpos hlt
      unfold UserService.consumeEnergy
      rw [if_neg (not_le.mpr hpos), hrec, exceptBind_ok]
      exact if_pos hlt
    · intro hpos hge
      unfold UserService.consumeEnergy
      rw [if_neg (not_le.mpr hpos), hrec, exceptBind_ok]
      exact if_neg (not_lt.mpr hge)

/-- Witness for C5: a user with 40 energy and max 100, one minute after the
last update (regenerating to 41): consuming 0 and consuming 100 fail,
consuming 11 succeeds leaving 30 with the timestamp advanced. -/
theorem C5_witness :
    UserService.consumeEnergy
      { level := 1, experience := 0, currentEnergy := 40, maxEnergy := 100,
        updatedAt := 0, prestigeLevel := 0, prestigePoints := 0,
        totalLifetimeExperience := 0 } 0 60000 = .error "Amount must be positive" ∧
    UserService.consumeEnergy
      { level := 1, experience := 0, currentEnergy := 40, maxEnergy := 100,
        updatedAt := 0, prestigeLevel := 0, prestigePoints := 0,
        totalLifetimeExperience := 0 } 100 60000 = .error "Insufficient energy" ∧
    UserService.consumeEnergy
      { level := 1, experience := 0, currentEnergy := 40, maxEnergy := 100,
        updatedAt := 0, prestigeLevel := 0, prestigePoints := 0,
        totalLifetimeExperience := 0 } 11 60000
      = .ok { level := 1, experience := 0, currentEnergy := 30, maxEnergy := 100,
              updatedAt := 60000, prestigeLevel := 0, prestigePoints := 0,
              totalLifetimeExperience := 0 } := by
  have h := C5_consume_energy
    { level := 1, experience := 0, currentEnergy := 40, maxEnergy := 100,
      updatedAt := 0, prestigeLevel := 0, prestigePoints := 0,
      totalLifetimeExperience := 0 } 0 60000
  have h100 := C5_consume_energy
    { level := 1, experience := 0, currentEnergy := 40, maxEnergy := 100,
      updatedAt := 0, prestigeLevel := 0, prestigePoints := 0,
      totalLifetimeExperience := 0 } 100 60000
  have h11 := C5_consume_energy
    { level := 1, experience := 0, currentEnergy := 40, maxEnergy := 100,
      updatedAt := 0, prestigeLevel := 0, prestigePoints := 0,
      totalLifetimeExperience := 0 } 11 60000
  have hrec : EnergyManager.calculateRegeneratedEnergy 40 100 0 1 false 60000 = .ok 41 := by
    rw [calcRegen_eq 40 100 0 1 60000 false (by norm_num) (by norm_num) (by norm_num)]
    norm_num [EnergyManager.msPerMinute, EnergyManager.baseRegenerationRate]
  refine ⟨h.1 (by norm_num), ?_, ?_⟩
  · exact ((h100.2 41 hrec).1 (by norm_num) (by norm_num))
  · have := (h11.2 41 hrec).2 (by norm_num) (by norm_num)
    rw [this]
    norm_num

/-! ## Claim C7 -/

/-- C7: reconciliation is idempotent at a fixed `now`: applying the
reconcile-and-persist step again, with the same `now`, to the state it
produced returns that state unchanged. -/
theorem C7_reconcile_idempotent (s : EnergyState) (now : ℚ)
    (hc : 0 ≤ s.currentEnergy) (hm : 0 < s.maxEnergy)
    (hr : 0 ≤ s.regenRateMultiplier) :
    ∀ s1, reconcileEnergyState s now = .ok s1 →
      reconcileEnergyState s1 now = .ok s1 := by
  intro s1 h1
  obtain ⟨r, hok, hcr, _, _⟩ :=
    calcRegen_bounds s.currentEnergy s.maxEnergy s.lastEnergyUpdate
      s.regenRateMultiplier now s.inRecoveryZone hc hm hr
  unfold reconcileEnergyState at h1
  rw [hok, exceptBind_ok] at h1
  have hs1 : s1 = { s with currentEnergy := r, lastEnergyUpdate := now } :=
    (Except.ok.inj h1).symm
  subst hs1
  unfold reconcileEnergyState
  rw [calcRegen_same_time r s.maxEnergy s.regenRateMultiplier now s.inRecoveryZone
    (le_trans hc hcr) hm hr, exceptBind_ok]
  rfl

/-- Witness for C7: a state at 40/100 reconciled one minute later becomes
41/100 stamped at `now`; reconciling that state again at the same `now`
returns it unchanged. -/
theorem C7_witness :
    reconcileEnergyState
      { currentEnergy := 40, maxEnergy := 100, lastEnergyUpdate := 0,
        regenRateMultiplier := 1, inRecoveryZone := false } 60000
      = .ok { currentEnergy := 41, maxEnergy := 100, lastEnergyUpdate := 60000,
              regenRateMultiplier := 1, inRecoveryZone := false } ∧
    reconcileEnergyState
      { currentEnergy := 41, maxEnergy := 100, lastEnergyUpdate := 60000,
        regenRateMultiplier := 1, inRecoveryZone := false } 60000
      = .ok { currentEnergy := 41, maxEnergy := 100, lastEnergyUpdate := 60000,
              regenRateMultiplier := 1, inRecoveryZone := false } := by
  have hfirst : reconcileEnergyState
      { currentEnergy := 40, maxEnergy := 100, lastEnergyUpdate := 0,
        regenRateMultiplier := 1, inRecoveryZone := false } 60000
      = .ok { currentEnergy := 41, maxEnergy := 100, lastEnergyUpdate := 60000,
              regenRateMultiplier := 1, inRecoveryZone := false } := by
    unfold reconcileEnergyState
    have hrec : EnergyManager.calculateRegeneratedEnergy 40 100 0 1 false 60000 = .ok 41 := by
      rw [calcRegen_eq 40 100 0 1 60000 false (by norm_num) (by norm_num) (by norm_num)]
      norm_num [EnergyManager.msPerMinute, EnergyManager.baseRegenerationRate]
    rw [hrec, exceptBind_ok]
    rfl
  exact ⟨hfirst,
    C7_reconcile_idempotent
      { currentEnergy := 40, maxEnergy := 100, lastEnergyUpdate := 0,
        regenRateMultiplier := 1, inRecoveryZone := false } 60000
      (by norm_num) (by norm_num) (by norm_num) _ hfirst⟩

/-! ## Claim C9 -/

/-- C9: a boost caps the result at `max * (1 + 0.50)` when overflow is
allowed (at `max` otherwise); whenever the boosted value exceeds `max` the
overflow expiry is set to exactly `now` plus the boost's own duration
(re-armed, independent of any previous expiry, which the function does not
even receive), and it is cleared otherwise. -/
theorem C9_apply_boost (c m amount dur now : ℚ) (allowOverflow : Bool)
    (hc : 0 ≤ c) (hm : 0 < m) (ha : 0 < amount) (hd : 0 ≤ dur) :
    ∃ b, EnergyManager.applyEnergyBoost c m amount allowOverflow dur now = .ok b ∧
      b.energy = min (c + amount)
        (if allowOverflow then m * (1 + EnergyManager.maxOverflowPercentage) else m) ∧
      (m < b.energy → b.overflowExpiry = some (now + dur * EnergyManager.msPerMinute)) ∧
      (b.energy ≤ m → b.overflowExpiry = none) := by
  unfold EnergyManager.applyEnergyBoost
  rw [if_neg (not_lt.mpr hc), if_neg (not_le.mpr hm), if_neg (not_le.mpr ha),
    if_neg (not_lt.mpr hd)]
  refine ⟨_, rfl, rfl, ?_, ?_⟩
  · intro hlt
    simp only [if_pos hlt]
  · intro hle
    simp only [if_neg (not_lt.mpr hle)]

/-- Witness for C9: the spec's example — boosting 50/100 by 80 with
overflow allowed for 60 minutes yields energy 130 (cap 150 not reached)
and an overflow expiry exactly 60 minutes (3600000 ms) after `now = 0`. -/
theorem C9_witness :
    EnergyManager.applyEnergyBoost 50 100 80 true 60 0
      = .ok { energy := 130, overflowExpiry := some 3600000 } := by
  obtain ⟨b, hok, he, hov, _⟩ :=
    C9_apply_boost 50 100 80 60 0 true (by norm_num) (by norm_num) (by norm_num) (by norm_num)
  have he130 : b.energy = 130 := by
    rw [he]
    norm_num [EnergyManager.maxOverflowPercentage]
  have hexp : b.overflowExpiry = some 3600000 := by
    have := hov (by rw [he130]; norm_num)
    rw [this]
    norm_num [EnergyManager.msPerMinute]
  rw [hok]
  have : b = { energy := 130, overflowExpiry := some 3600000 } := by
    cases b
    simp_all
  rw [this]

/-! ## Claim C10 -/

/-- C10: for a user whose (reconciled) current energy exceeds max — an
active overflow — `regenerateEnergy` with any nonnegative amount, zero
included, clamps the result to exactly `max`, strictly decreasing the
current energy and silently discarding the overflow. -/
theorem C10_grant_discards_overflow (user : User) (amount now : ℚ)
    (hm : 0 < user.maxEnergy) (hover : user.maxEnergy < user.currentEnergy)
    (ha : 0 ≤ amount) :
    UserService.regenerateEnergy user amount now
      = .ok { user with currentEnergy := user.maxEnergy, updatedAt := now } ∧
    user.maxEnergy < user.currentEnergy := by
  refine ⟨?_, hover⟩
  unfold UserService.regenerateEnergy
  rw [if_neg (not_lt.mpr ha)]
  obtain ⟨r, hok, hcr, _, hfix⟩ :=
    calcRegen_bounds user.currentEnergy user.maxEnergy user.updatedAt 1 now false
      (le_trans (le_of_lt hm) (le_of_lt hover)) hm (by norm_num)
  rw [hok, exceptBind_ok, hfix (le_of_lt hover)]
  have : min (user.currentEnergy + amount) user.maxEnergy = user.maxEnergy :=
    min_eq_right (by linarith)
  rw [this]

/-- Witness for C10: a user in overflow at 130/100 granted 0 energy drops
to exactly 100. -/
theorem C10_witness :
    UserService.regenerateEnergy
      { level := 1, experience := 0, currentEnergy := 130, maxEnergy := 100,
        updatedAt := 0, prestigeLevel := 0, prestigePoints := 0,
        totalLifetimeExperience := 0 } 0 60000
      = .ok { level := 1, experience := 0, currentEnergy := 100, maxEnergy := 100,
              updatedAt := 60000, prestigeLevel := 0, prestigePoints := 0,
              totalLifetimeExperience := 0 } := by
  have h := C10_grant_discards_overflow
    { level := 1, experience := 0, currentEnergy := 130, maxEnergy := 100,
      updatedAt := 0, prestigeLevel := 0, prestigePoints := 0,
      totalLifetimeExperience := 0 } 0 60000 (by norm_num) (by norm_num) (by norm_num)
  exact h.1

/-! ## Claim C8 -/

/-- C8: prestige fails below level 50; at or above level 50 it resets level
to 1 and experience to 0, increments `prestigeLevel`, awards
`floor(oldLevel / 10)` prestige points, and any successful prestige leaves
`totalLifetimeExperience` unchanged. -/
theorem C8_prestige (user : User) :
    (user.level < 50 →
      UserService.prestigeUser user
        = .error "You must be at least level 50 to prestige") ∧
    (50 ≤ user.level →
      UserService.prestigeUser user
        = .ok { user with
            level := 1
            experience := 0
            prestigeLevel := user.prestigeLevel + 1
            prestigePoints := user.prestigePoints + user.level / 10 }) ∧
    (∀ u2, UserService.prestigeUser user = .ok u2 →
      u2.totalLifetimeExperience = user.totalLifetimeExperience) := by
  refine ⟨?_, ?_, ?_⟩
  · intro h
    unfold UserService.prestigeUser
    rw [if_pos h]
  · intro h
    unfold UserService.prestigeUser
    rw [if_neg (not_lt.mpr h)]
  · intro u2 h
    unfold UserService.prestigeUser at h
    split at h
    · cases h
    · have := Except.ok.inj h
      subst this
      rfl

/-- Witness for C8: a level-42 user cannot prestige; a level-57 user with
1 prior prestige, 3 points and lifetime XP 12345 resets to level 1 with 2
prestiges, 3 + 5 points, and untouched lifetime XP. -/
theorem C8_witness :
    UserService.prestigeUser
      { level := 42, experience := 10, currentEnergy := 50, maxEnergy := 100,
        updatedAt := 0, prestigeLevel := 0, prestigePoints := 0,
        totalLifetimeExperience := 999 }
      = .error "You must be at least level 50 to prestige" ∧
    UserService.prestigeUser
      { level := 57, experience := 10, currentEnergy := 50, maxEnergy := 100,
        updatedAt := 0, prestigeLevel := 1, prestigePoints := 3,
        totalLifetimeExperience := 12345 }
      = .ok { level := 1, experience := 0, currentEnergy := 50, maxEnergy := 100,
              updatedAt := 0, prestigeLevel := 2, prestigePoints := 8,
              totalLifetimeExperience := 12345 } := by
  have h42 := C8_prestige
    { level := 42, experience := 10, currentEnergy := 50, maxEnergy := 100,
      updatedAt := 0, prestigeLevel := 0, prestigePoints := 0,
      totalLifetimeExperience := 999 }
  have h57 := C8_prestige
    { level := 57, experience := 10, currentEnergy := 50, maxEnergy := 100,
      updatedAt := 0, prestigeLevel := 1, prestigePoints := 3,
      totalLifetimeExperience := 12345 }
  exact ⟨h42.1 (by norm_num), h57.2.1 (by norm_num)⟩

/-! ## Claim C6 -/

/-- The catch-up arm of `getCurrentXpMultipliers`, read off the record. -/
theorem catchup_proj (events : List XpMultiplierEvent) (now avg : ℚ) (lvl : ℕ) :
    (UserService.getCurrentXpMultipliers events now avg lvl).catchupMultiplier
      = if 5 < avg - (lvl : ℚ) then min (1 + (avg - (lvl : ℚ)) * 0.05) 1.5 else 1 := rfl

/-- The event arm of `getCurrentXpMultipliers`, read off the record. -/
theorem eventMult_proj (events : List XpMultiplierEvent) (now avg : ℚ) (lvl : ℕ) :
    (UserService.getCurrentXpMultipliers events now avg lvl).eventMultiplier
      = eventMultiplierOf
          ((events.filter fun e => isActiveEvent e now).map fun e => e.multiplier) := rfl

/-- C6 (counterexample): at server average 6 and player level 1 the deficit
is exactly 5; the claim's interpolation (implemented verbatim by the unused
`ExperienceCalculator.getCatchupMultiplier`) yields the 1.5 cap, but the
multiplier the GrantExperience path actually uses is 1.0 — the UserService
arm requires the deficit to strictly exceed 5. -/
theorem C6_counterexample :
    (UserService.getCurrentXpMultipliers [] 0 6 1).catchupMultiplier = 1 ∧
    ExperienceCalculator.getCatchupMultiplier 1 6 = 1.5 ∧
    (1 : ℚ) ≠ 1.5 := by
  refine ⟨?_, ?_, by norm_num⟩
  · rw [catchup_proj]
    norm_num
  · unfold ExperienceCalculator.getCatchupMultiplier
    rw [if_neg (by norm_num)]
    norm_num [ExperienceCalculator.catchupThreshold, ExperienceCalculator.maxCatchupMultiplier]

/-- C6 (amended): the catch-up multiplier used by GrantExperience is 1.0
whenever the level deficit (average minus player level) is at most 5 — in
particular whenever the player is at or above the average — and for a
deficit strictly above 5 it is `min(1 + 0.05 * deficit, 1.5)`, i.e. 5% per
level of deficit, reaching the 1.5 cap only from a deficit of 10 upward. -/
theorem C6_catchup_used (events : List XpMultiplierEvent) (now avg : ℚ) (lvl : ℕ) :
    (avg - (lvl : ℚ) ≤ 5 →
      (UserService.getCurrentXpMultipliers events now avg lvl).catchupMultiplier = 1) ∧
    (5 < avg - (lvl : ℚ) →
      (UserService.getCurrentXpMultipliers events now avg lvl).catchupMultiplier
        = min (1 + (avg - (lvl : ℚ)) * 0.05) 1.5) ∧
    (10 ≤ avg - (lvl : ℚ) →
      (UserService.getCurrentXpMultipliers events now avg lvl).catchupMultiplier = 1.5) := by
  refine ⟨?_, ?_, ?_⟩
  · intro h
    rw [catchup_proj, if_neg (not_lt.mpr h)]
  · intro h
    rw [catchup_proj, if_pos h]
  · intro h
    rw [catchup_proj, if_pos (by linarith), min_eq_right (by linarith)]

/-- Witness for C6: deficits 3, 6 and 19 give multipliers 1, 1.3 and 1.5. -/
theorem C6_witness :
    (UserService.getCurrentXpMultipliers [] 0 4 1).catchupMultiplier = 1 ∧
    (UserService.getCurrentXpMultipliers [] 0 7 1).catchupMultiplier = 1.3 ∧
    (UserService.getCurrentXpMultipliers [] 0 20 1).catchupMultiplier = 1.5 := by
  refine ⟨(C6_catchup_used [] 0 4 1).1 (by norm_num), ?_,
    (C6_catchup_used [] 0 20 1).2.2 (by norm_num)⟩
  rw [(C6_catchup_used [] 0 7 1).2.1 (by norm_num)]
  norm_num

/-! ## Claim C1 -/

/-- C1: whenever every active event is in scope for the acting player and
zone, the event multiplier used by GrantExperience equals the single
highest applicable multiplier (1.0 when none apply) — a maximum, never a
product. -/
theorem C1_event_multiplier (events : List XpMultiplierEvent) (now avg : ℚ)
    (lvl : ℕ) (userId zoneId : String)
    (h : ∀ e ∈ events, isActiveEvent e now = true →
      inScopeEvent e userId zoneId = true) :
    (UserService.getCurrentXpMultipliers events now avg lvl).eventMultiplier
      = specHighestApplicableMultiplier events now userId zoneId := by
  rw [eventMult_proj]
  unfold specHighestApplicableMultiplier
  have hfeq : (events.filter fun e => isActiveEvent e now)
      = events.filter fun e => isActiveEvent e now && inScopeEvent e userId zoneId := by
    apply List.filter_congr
    intro e he
    cases hae : isActiveEvent e now
    · simp
    · simp [h e he hae]
  rw [hfeq]

/-- Witness for C1: two overlapping unscoped events of multiplier 2.0 and
3.0 yield an event multiplier of 3.0 (the maximum), not 6.0. -/
theorem C1_witness :
    (UserService.getCurrentXpMultipliers
        [{ multiplier := 2, startTime := 0, endTime := 100,
           userIds := none, zoneIds := none },
         { multiplier := 3, startTime := 0, endTime := 100,
           userIds := none, zoneIds := none }] 50 1 1).eventMultiplier
      = specHighestApplicableMultiplier
        [{ multiplier := 2, startTime := 0, endTime := 100,
           userIds := none, zoneIds := none },
         { multiplier := 3, startTime := 0, endTime := 100,
           userIds := none, zoneIds := none }] 50 "player" "zone" ∧
    (UserService.getCurrentXpMultipliers
        [{ multiplier := 2, startTime := 0, endTime := 100,
           userIds := none, zoneIds := none },
         { multiplier := 3, startTime := 0, endTime := 100,
           userIds := none, zoneIds := none }] 50 1 1).eventMultiplier = 3 ∧
    (3 : ℚ) ≠ 2 * 3 := by
  refine ⟨C1_event_multiplier _ 50 1 1 "player" "zone" ?_, ?_, by norm_num⟩
  · intro e he _
    fin_cases he <;> rfl
  · rw [eventMult_proj]
    have hact : isActiveEvent
        { multiplier := (2:ℚ), startTime := 0, endTime := 100,
          userIds := none, zoneIds := none } 50 = true := by
      simp [isActiveEvent]
      norm_num
    have hact3 : isActiveEvent
        { multiplier := (3:ℚ), startTime := 0, endTime := 100,
          userIds := none, zoneIds := none } 50 = true := by
      simp [isActiveEvent]
      norm_num
    have hmax : max (2:ℚ) 3 = 3 := max_eq_right (by norm_num)
    simp [List.filter_cons, hact, hact3, eventMultiplierOf, hmax]

/-! ## Level-curve and level-up-loop evaluation lemmas -/

theorem remaining_nextLevel (x : ℚ) :
    (ExperienceCalculator.getRemainingXp x).nextLevelXp
      = ExperienceCalculator.getXpRequiredForNextLevel
          (ExperienceCalculator.getLevelFromXp x) := rfl

/-- One step of the level-up loop when the requirement is met. -/
theorem levelUpLoopF_step (fuelN : ℕ) (e : ℚ) (lvl : ℕ) (b : Bool) (v : ℚ)
    (hv : (ExperienceCalculator.getRemainingXp e).nextLevelXp = some v)
    (hle : v ≤ e) :
    UserService.levelUpLoopF (fuelN + 1) e lvl b
      = UserService.levelUpLoopF fuelN (e - v) (lvl + 1) true := by
  conv_lhs => unfold UserService.levelUpLoopF
  rw [hv]
  simp [hle]

/-- Exit of the level-up loop when the requirement is not met. -/
theorem levelUpLoopF_stop (fuelN : ℕ) (e : ℚ) (lvl : ℕ) (b : Bool) (v : ℚ)
    (hv : (ExperienceCalculator.getRemainingXp e).nextLevelXp = some v)
    (hgt : e < v) :
    UserService.levelUpLoopF (fuelN + 1) e lvl b = (e, lvl, b) := by
  conv_lhs => unfold UserService.levelUpLoopF
  rw [hv]
  simp [not_le.mpr hgt]

/-- The iteration count of `levelUpLoop` at a concrete tally. -/
theorem levelUpLoop_eval (e : ℚ) (lvl : ℕ) (n : ℕ) (h : (⌈e⌉ : ℤ) = (n : ℤ)) :
    UserService.levelUpLoop e lvl = UserService.levelUpLoopF (n + 1) e lvl false := by
  rw [UserService.levelUpLoop, h, Int.toNat_natCast]

theorem getLevelFromXp_30 : ExperienceCalculator.getLevelFromXp 30 = 1 := by
  norm_num [ExperienceCalculator.getLevelFromXp, ExperienceCalculator.getLevelFromXpAux,
    ExperienceCalculator.getXpRequiredForNextLevel, ExperienceCalculator.xpStep, geOpt,
    addOpt, ExperienceCalculator.maxLevel, ExperienceCalculator.baseXP,
    ExperienceCalculator.xpScalingFactor]

theorem getLevelFromXp_36 : ExperienceCalculator.getLevelFromXp 36 = 1 := by
  norm_num [ExperienceCalculator.getLevelFromXp, ExperienceCalculator.getLevelFromXpAux,
    ExperienceCalculator.getXpRequiredForNextLevel, ExperienceCalculator.xpStep, geOpt,
    addOpt, ExperienceCalculator.maxLevel, ExperienceCalculator.baseXP,
    ExperienceCalculator.xpScalingFactor]

theorem getLevelFromXp_150 : ExperienceCalculator.getLevelFromXp 150 = 2 := by
  norm_num [ExperienceCalculator.getLevelFromXp, ExperienceCalculator.getLevelFromXpAux,
    ExperienceCalculator.getXpRequiredForNextLevel, ExperienceCalculator.xpStep, geOpt,
    addOpt, ExperienceCalculator.maxLevel, ExperienceCalculator.baseXP,
    ExperienceCalculator.xpScalingFactor]

theorem getLevelFromXp_156 : ExperienceCalculator.getLevelFromXp 156 = 2 := by
  norm_num [ExperienceCalculator.getLevelFromXp, ExperienceCalculator.getLevelFromXpAux,
    ExperienceCalculator.getXpRequiredForNextLevel, ExperienceCalculator.xpStep, geOpt,
    addOpt, ExperienceCalculator.maxLevel, ExperienceCalculator.baseXP,
    ExperienceCalculator.xpScalingFactor]

theorem getLevelFromXp_300 : ExperienceCalculator.getLevelFromXp 300 = 3 := by
  norm_num [ExperienceCalculator.getLevelFromXp, ExperienceCalculator.getLevelFromXpAux,
    ExperienceCalculator.getXpRequiredForNextLevel, ExperienceCalculator.xpStep, geOpt,
    addOpt, ExperienceCalculator.maxLevel, ExperienceCalculator.baseXP,
    ExperienceCalculator.xpScalingFactor]

theorem getLevelFromXp_686 : ExperienceCalculator.getLevelFromXp 686 = 5 := by
  norm_num [ExperienceCalculator.getLevelFromXp, ExperienceCalculator.getLevelFromXpAux,
    ExperienceCalculator.getXpRequiredForNextLevel, ExperienceCalculator.xpStep, geOpt,
    addOpt, ExperienceCalculator.maxLevel, ExperienceCalculator.baseXP,
    ExperienceCalculator.xpScalingFactor]

theorem next_30 : (ExperienceCalculator.getRemainingXp 30).nextLevelXp = some 100 := by
  rw [remaining_nextLevel, getLevelFromXp_30]
  norm_num [ExperienceCalculator.getXpRequiredForNextLevel, ExperienceCalculator.xpStep,
    ExperienceCalculator.maxLevel, ExperienceCalculator.baseXP,
    ExperienceCalculator.xpScalingFactor]

theorem next_36 : (ExperienceCalculator.getRemainingXp 36).nextLevelXp = some 100 := by
  rw [remaining_nextLevel, getLevelFromXp_36]
  norm_num [ExperienceCalculator.getXpRequiredForNextLevel, ExperienceCalculator.xpStep,
    ExperienceCalculator.maxLevel, ExperienceCalculator.baseXP,
    ExperienceCalculator.xpScalingFactor]

theorem next_150 : (ExperienceCalculator.getRemainingXp 150).nextLevelXp = some 120 := by
  rw [remaining_nextLevel, getLevelFromXp_150]
  norm_num [ExperienceCalculator.getXpRequiredForNextLevel, ExperienceCalculator.xpStep,
    ExperienceCalculator.maxLevel, ExperienceCalculator.baseXP,
    ExperienceCalculator.xpScalingFactor]

theorem next_156 : (ExperienceCalculator.getRemainingXp 156).nextLevelXp = some 120 := by
  rw [remaining_nextLevel, getLevelFromXp_156]
  norm_num [ExperienceCalculator.getXpRequiredForNextLevel, ExperienceCalculator.xpStep,
    ExperienceCalculator.maxLevel, ExperienceCalculator.baseXP,
    ExperienceCalculator.xpScalingFactor]

theorem next_300 : (ExperienceCalculator.getRemainingXp 300).nextLevelXp = some 144 := by
  rw [remaining_nextLevel, getLevelFromXp_300]
  norm_num [ExperienceCalculator.getXpRequiredForNextLevel, ExperienceCalculator.xpStep,
    ExperienceCalculator.maxLevel, ExperienceCalculator.baseXP,
    ExperienceCalculator.xpScalingFactor]

/-- The buggy level-up loop at tally 150 from level 5: the tally is treated
as total XP (level 2, requirement 120), so one level-up fires. -/
theorem levelUpLoop_150_5 : UserService.levelUpLoop 150 5 = (30, 6, true) := by
  rw [levelUpLoop_eval 150 5 150 (by norm_num)]
  rw [levelUpLoopF_step 150 150 5 false 120 next_150 (by norm_num)]
  rw [show (150:ℚ) - 120 = 30 from by norm_num]
  rw [show (150:ℕ) = 149 + 1 from rfl]
  rw [levelUpLoopF_stop 149 30 (5 + 1) true 100 next_30 (by norm_num)]

/-- The buggy level-up loop at tally 300 from level 4: two level-ups fire
(requirements 144 then 120, read off the tally as if it were total XP). -/
theorem levelUpLoop_300_4 : UserService.levelUpLoop 300 4 = (36, 6, true) := by
  rw [levelUpLoop_eval 300 4 300 (by norm_num)]
  rw [levelUpLoopF_step 300 300 4 false 144 next_300 (by norm_num)]
  rw [show (300:ℚ) - 144 = 156 from by norm_num]
  rw [show (300:ℕ) = 299 + 1 from rfl]
  rw [levelUpLoopF_step 299 156 (4 + 1) true 120 next_156 (by norm_num)]
  rw [show (156:ℚ) - 120 = 36 from by norm_num]
  rw [show (299:ℕ) = 298 + 1 from rfl]
  rw [levelUpLoopF_stop 298 36 (4 + 1 + 1) true 100 next_36 (by norm_num)]

/-- The multiplier record at no events, average 1: everything is 1. -/
theorem multipliers_trivial (lvl : ℕ) :
    UserService.getCurrentXpMultipliers [] 0 1 lvl = ⟨1, 1, 1⟩ := by
  unfold UserService.getCurrentXpMultipliers
  have hle : ¬ (5:ℚ) < 1 - (lvl : ℚ) := by
    have : (0:ℚ) ≤ (lvl : ℚ) := Nat.cast_nonneg lvl
    intro h
    linarith
  simp [eventMultiplierOf, hle]

theorem insertRecords_fresh (uid : String) (lvl : ℕ) :
    ∀ (ids : List String) (db : List UserService.MilestoneRecord),
      (∀ r ∈ db, r.id ∉ ids) → ids.Nodup →
      UserService.insertRecords uid lvl db ids
        = .ok (db ++ ids.map fun rid =>
            { id := rid, userId := uid, level := lvl, claimed := false }) := by
  intro ids
  induction ids with
  | nil =>
    intro db _ _
    simp [UserService.insertRecords]
  | cons rid rest ih =>
    intro db hfresh hnodup
    have hno : ¬(db.any fun r => r.id == rid) = true := by
      simp only [List.any_eq_true, not_exists, not_and, beq_iff_eq]
      intro r hr he
      exact hfresh r hr (he ▸ List.mem_cons_self rid rest)
    have hf2 : ∀ r ∈
        db ++ [({ id := rid, userId := uid, level := lvl, claimed := false } :
          UserService.MilestoneRecord)], r.id ∉ rest := by
      intro r hr
      rcases List.mem_append.mp hr with h1 | h2
      · exact fun hmem => hfresh r h1 (List.mem_cons_of_mem _ hmem)
      · have hre : r = { id := rid, userId := uid, level := lvl, claimed := false } := by
          simpa using h2
        subst hre
        simpa using (List.nodup_cons.mp hnodup).1
    unfold UserService.insertRecords
    rw [if_neg hno]
    rw [ih _ hf2 (List.Nodup.of_cons hnodup)]
    simp

theorem appendLen_ne (p1 p2 uid : String) (h : p1.length ≠ p2.length) :
    p1 ++ uid ≠ p2 ++ uid := by
  intro he
  apply h
  have hlen := congrArg String.length he
  simp only [String.length_append] at hlen
  omega

theorem milestoneRewardIds_nodup (uid : String) (lvl : ℕ) :
    (UserService.milestoneRewardIds uid lvl).Nodup := by
  unfold UserService.milestoneRewardIds
  split
  · simp
  · simp
  · simp
  · refine List.nodup_cons.mpr ⟨?_, List.nodup_cons.mpr ⟨?_,
      List.nodup_cons.mpr ⟨?_, List.nodup_nil⟩⟩⟩
    · simp only [List.mem_cons, List.not_mem_nil, or_false, not_or]
      exact ⟨appendLen_ne _ _ _ (by decide), appendLen_ne _ _ _ (by decide)⟩
    · simp only [List.mem_cons, List.not_mem_nil, or_false]
      exact appendLen_ne _ _ _ (by decide)
    · simp
  · simp

theorem C4_milestone_idempotent (db : List UserService.MilestoneRecord)
    (uid : String) (lvl : ℕ)
    (hdb : ∀ r ∈ db, ¬(r.userId = uid ∧ r.level = lvl))
    (hids : ∀ r ∈ db, r.id ∉ UserService.milestoneRewardIds uid lvl) :
    ∃ db1 ids1, UserService.processMilestoneRewards db uid lvl = .ok (db1, ids1) ∧
      (db1.filter fun r => r.userId == uid && r.level == lvl).length
        = (UserService.milestoneRewardIds uid lvl).length ∧
      (∀ m ∈ db1, m ∈ db ∨ (m.userId = uid ∧ m.level = lvl ∧ m.claimed = false)) ∧
      ∃ ids2, UserService.processMilestoneRewards db1 uid lvl = .ok (db1, ids2) := by
  have hfilter0 : (db.filter fun r =>
      r.userId == uid && r.level == lvl && r.claimed == false) = [] := by
    rw [List.filter_eq_nil_iff]
    intro r hr
    simp only [Bool.and_eq_true, beq_iff_eq, not_and]
    intro h1 _
    exact (hdb r hr) ⟨h1.1, h1.2⟩
  have h1 : UserService.processMilestoneRewards db uid lvl
      = .ok (db ++ (UserService.milestoneRewardIds uid lvl).map fun rid =>
          { id := rid, userId := uid, level := lvl, claimed := false },
        UserService.milestoneRewardIds uid lvl) := by
    unfold UserService.processMilestoneRewards
    rw [hfilter0]
    simp only [List.length_nil, lt_irrefl, if_false]
    rw [insertRecords_fresh uid lvl (UserService.milestoneRewardIds uid lvl) db hids
      (milestoneRewardIds_nodup uid lvl)]
    rfl
  have hfilterA : (db.filter fun r => r.userId == uid && r.level == lvl) = [] := by
    rw [List.filter_eq_nil_iff]
    intro r hr
    simp only [Bool.and_eq_true, beq_iff_eq, not_and]
    exact fun ha hb => (hdb r hr) ⟨ha, hb⟩
  have hfilterB : (((UserService.milestoneRewardIds uid lvl).map fun rid =>
      ({ id := rid, userId := uid, level := lvl, claimed := false } :
        UserService.MilestoneRecord)).filter fun r =>
          r.userId == uid && r.level == lvl)
      = (UserService.milestoneRewardIds uid lvl).map fun rid =>
          { id := rid, userId := uid, level := lvl, claimed := false } := by
    rw [List.filter_eq_self]
    intro r hr
    obtain ⟨rid, _, rfl⟩ := List.mem_map.mp hr
    simp
  have hfilterC : (((UserService.milestoneRewardIds uid lvl).map fun rid =>
      ({ id := rid, userId := uid, level := lvl, claimed := false } :
        UserService.MilestoneRecord)).filter fun r =>
          r.userId == uid && r.level == lvl && r.claimed == false)
      = (UserService.milestoneRewardIds uid lvl).map fun rid =>
          { id := rid, userId := uid, level := lvl, claimed := false } := by
    rw [List.filter_eq_self]
    intro r hr
    obtain ⟨rid, _, rfl⟩ := List.mem_map.mp hr
    simp
  refine ⟨_, _, h1, ?_, ?_, ?_⟩
  · rw [List.filter_append, hfilterA, hfilterB]
    simp
  · intro m hm
    rcases List.mem_append.mp hm with h | h
    · exact Or.inl h
    · obtain ⟨rid, _, rfl⟩ := List.mem_map.mp h
      exact Or.inr ⟨rfl, rfl, rfl⟩
  · unfold UserService.processMilestoneRewards
    rw [List.filter_append, hfilter0, hfilterC, List.nil_append]
    by_cases hlen : 0 < ((UserService.milestoneRewardIds uid lvl).map fun rid =>
        ({ id := rid, userId := uid, level := lvl, claimed := false } :
          UserService.MilestoneRecord)).length
    · rw [if_pos hlen]
      exact ⟨_, rfl⟩
    · rw [if_neg hlen]
      have hnil : UserService.milestoneRewardIds uid lvl = [] := by
        rcases hmi : UserService.milestoneRewardIds uid lvl with _ | ⟨a, t⟩
        · rfl
        · rw [hmi] at hlen
          simp at hlen
      rw [hnil]
      exact ⟨[], by simp [UserService.insertRecords, Except.map]⟩

/-! ## Claim C3 -/

/-- C3 (code bug): `addExperience` feeds the within-level tally into
`getRemainingXp`, whose parameter is documented as total XP. For a level-5
user with within-level experience 0 granted 150 XP (multiplier 1), the
loop reads the requirement off `getLevelFromXp 150 = 2` (120 XP) and fires
a level-up: the code yields `(level 6, experience 30)`. The claimed
cumulative derivation gives `cumulative = CumulativeXpForLevel(5) + 0 +
150 = 536 + 150 = 686`, and `LevelFromCumulativeXp 686 = 5` with
within-level `686 - 536 = 150`: the call should not level the user at all
(level 6 starts at 743). -/
theorem C3_level_derivation_bug :
    (UserService.addExperience
        { level := 5, experience := 0, currentEnergy := 0, maxEnergy := 100,
          updatedAt := 0, prestigeLevel := 0, prestigePoints := 0,
          totalLifetimeExperience := 0 } [] "u" 150 [] 0 1).map
      (fun r => (r.newLevel, r.user.experience)) = .ok (6, 30) ∧
    ExperienceCalculator.getXpForLevel 5 = 536 ∧
    ExperienceCalculator.getXpForLevel 6 = 743 ∧
    ExperienceCalculator.getLevelFromXp 686 = 5 := by
  refine ⟨?_, ?_, ?_, getLevelFromXp_686⟩
  · have hms : UserService.processMilestoneRewards [] "u" 6 = .ok ([], []) := rfl
    have hxp : ((0:ℚ) + (((⌈(150:ℚ) * 1⌉ : ℤ)) : ℚ)) = 150 := by norm_num
    simp only [UserService.addExperience, multipliers_trivial]
    norm_num [hxp, levelUpLoop_150_5, hms, exceptBind_ok, Except.map]
  · norm_num [ExperienceCalculator.getXpForLevel, ExperienceCalculator.maxLevel,
      List.range', ExperienceCalculator.xpStep, ExperienceCalculator.baseXP,
      ExperienceCalculator.xpScalingFactor]
  · norm_num [ExperienceCalculator.getXpForLevel, ExperienceCalculator.maxLevel,
      List.range', ExperienceCalculator.xpStep, ExperienceCalculator.baseXP,
      ExperienceCalculator.xpScalingFactor]

/-! ## Claim C4 -/

/-- C4 (counterexample): a level-4 user granted 300 XP (multiplier 1)
rises to level 6, crossing the level-5 threshold, for which a milestone
reward is defined; yet afterwards no MilestoneRecord for (player, 5)
exists — the code processes milestones only for the final new level. -/
theorem C4_counterexample :
    (UserService.addExperience
        { level := 4, experience := 0, currentEnergy := 0, maxEnergy := 100,
          updatedAt := 0, prestigeLevel := 0, prestigePoints := 0,
          totalLifetimeExperience := 0 } [] "u" 300 [] 0 1).map
      (fun r => (r.oldLevel, r.newLevel,
        (r.db.filter fun m => m.userId == "u" && m.level == 5).length))
      = .ok (4, 6, 0) ∧
    UserService.milestoneRewardIds "u" 5 = ["level-5-currency-u"] := by
  refine ⟨?_, rfl⟩
  have hms : UserService.processMilestoneRewards [] "u" 6 = .ok ([], []) := rfl
  have hxp : ((0:ℚ) + (((⌈(300:ℚ) * 1⌉ : ℤ)) : ℚ)) = 300 := by norm_num
  simp only [UserService.addExperience, multipliers_trivial]
  norm_num [hxp, levelUpLoop_300_4, hms, exceptBind_ok, Except.map]

/-- Witness for C4: from an empty table, processing level 5 for player
`"u"` creates the single level-5 record; processing again returns the same
table with the existing record and inserts nothing. -/
theorem C4_witness :
    UserService.processMilestoneRewards [] "u" 5
      = .ok ([{ id := "level-5-currency-u", userId := "u", level := 5,
                claimed := false }], ["level-5-currency-u"]) ∧
    UserService.processMilestoneRewards
        [{ id := "level-5-currency-u", userId := "u", level := 5,
           claimed := false }] "u" 5
      = .ok ([{ id := "level-5-currency-u", userId := "u", level := 5,
                claimed := false }], ["level-5-currency-u"]) := by
  obtain ⟨db1, ids1, hp1, hcount, hmem, ids2, hp2⟩ :=
    C4_milestone_idempotent [] "u" 5 (by simp) (by simp)
  exact ⟨rfl, rfl⟩

/-! ## Adequacy of the loop iteration counts -/

theorem levelUpLoopF_top (fuelN : ℕ) (e : ℚ) (lvl : ℕ) (b : Bool)
    (hv : (ExperienceCalculator.getRemainingXp e).nextLevelXp = none) :
    UserService.levelUpLoopF (fuelN + 1) e lvl b = (e, lvl, b) := by
  conv_lhs => unfold UserService.levelUpLoopF
  rw [hv]

theorem getLevelFromXpAux_ge (xp : ℚ) :
    ∀ (fuel level : ℕ) (t : Option ℚ),
      level ≤ ExperienceCalculator.getLevelFromXpAux xp fuel level t := by
  intro fuel
  induction fuel with
  | zero =>
    intro level t
    exact le_refl level
  | succ n ih =>
    intro level t
    unfold ExperienceCalculator.getLevelFromXpAux
    split
    · exact le_trans (Nat.le_succ level) (ih (level + 1) _)
    · exact le_refl level

theorem getLevelFromXp_ge_one (xp : ℚ) : 1 ≤ ExperienceCalculator.getLevelFromXp xp := by
  unfold ExperienceCalculator.getLevelFromXp
  split
  · exact le_refl 1
  · exact getLevelFromXpAux_ge xp _ 1 _

theorem xpStep_ge (L : ℕ) (h1 : 1 ≤ L) : 100 ≤ ExperienceCalculator.xpStep L := by
  unfold ExperienceCalculator.xpStep ExperienceCalculator.baseXP
    ExperienceCalculator.xpScalingFactor
  have hexp : (0:ℤ) ≤ (L : ℤ) - 1 := by
    omega
  have hpow : (1:ℚ) ≤ (1.2 : ℚ) ^ ((L : ℤ) - 1) := by
    rw [show ((L : ℤ) - 1) = ((L - 1 : ℕ) : ℤ) from by omega, zpow_natCast]
    apply one_le_pow₀
    norm_num
  have hval : (100:ℚ) ≤ 100 * (1.2 : ℚ) ^ ((L : ℤ) - 1) := by
    nlinarith
  have hfl : (100:ℤ) ≤ ⌊(100:ℚ) * (1.2 : ℚ) ^ ((L : ℤ) - 1)⌋ := by
    rw [Int.le_floor]
    exact_mod_cast hval
  exact_mod_cast hfl

theorem nextLevel_ge (e v : ℚ)
    (hv : (ExperienceCalculator.getRemainingXp e).nextLevelXp = some v) : 100 ≤ v := by
  rw [remaining_nextLevel] at hv
  unfold ExperienceCalculator.getXpRequiredForNextLevel at hv
  split at hv
  · cases hv
  · have := xpStep_ge (ExperienceCalculator.getLevelFromXp e) (getLevelFromXp_ge_one e)
    cases hv
    exact this

/-- The iteration count in `levelUpLoop` never binds: one more unit leaves
the result unchanged whenever the count already exceeds `e / 100`, because
every iteration consumes at least `baseXP = 100` of the tally. -/
theorem levelUpLoopF_count_irrelevant :
    ∀ (fuelN : ℕ) (e : ℚ) (lvl : ℕ) (b : Bool), e < 100 * fuelN →
      UserService.levelUpLoopF fuelN e lvl b
        = UserService.levelUpLoopF (fuelN + 1) e lvl b := by
  intro fuelN
  induction fuelN with
  | zero =>
    intro e lvl b he
    norm_num at he
    rcases hv : (ExperienceCalculator.getRemainingXp e).nextLevelXp with _ | v
    · rw [levelUpLoopF_top 0 e lvl b hv]
      rfl
    · have h100 := nextLevel_ge e v hv
      rw [levelUpLoopF_stop 0 e lvl b v hv (by linarith)]
      rfl
  | succ n ih =>
    intro e lvl b he
    rcases hv : (ExperienceCalculator.getRemainingXp e).nextLevelXp with _ | v
    · rw [levelUpLoopF_top n e lvl b hv, levelUpLoopF_top (n + 1) e lvl b hv]
    · have h100 := nextLevel_ge e v hv
      by_cases hle : v ≤ e
      · rw [levelUpLoopF_step n e lvl b v hv hle,
          levelUpLoopF_step (n + 1) e lvl b v hv hle]
        apply ih
        push_cast at he
        linarith
      · rw [levelUpLoopF_stop n e lvl b v hv (not_le.mp hle),
          levelUpLoopF_stop (n + 1) e lvl b v hv (not_le.mp hle)]

/-- The count chosen by `levelUpLoop` is ample: adding one more unit does
not change the result. -/
theorem levelUpLoop_fuel_stable (e : ℚ) (lvl : ℕ) :
    UserService.levelUpLoop e lvl = UserService.levelUpLoopF (⌈e⌉.toNat + 2) e lvl false := by
  rw [UserService.levelUpLoop]
  apply levelUpLoopF_count_irrelevant
  have h1 : e ≤ (⌈e⌉ : ℚ) := Int.le_ceil e
  have h2 : (⌈e⌉ : ℚ) ≤ (⌈e⌉.toNat : ℚ) := by
    exact_mod_cast Int.self_le_toNat ⌈e⌉
  have h3 : ((⌈e⌉.toNat : ℚ)) < 100 * ((⌈e⌉.toNat : ℚ) + 1) := by
    nlinarith [Nat.cast_nonneg (α := ℚ) ⌈e⌉.toNat]
  push_cast
  linarith

end GameEngine
